import Mathlib

/-!
Shallow embedding of `src/whatsapp-mcp-server/main_http.py`: the JSON-RPC
protocol adapter exposing an MCP tool server over HTTP.  Pure Python code is
translated to Lean functions; the tool-registry collaborator (`mcp.list_tools`,
`mcp.call_tool`) is an explicit parameter whose calls may fault (`Except`),
and the HTTP body parse outcome is an `Option Json` on the request.
-/

namespace WhatsappMcp

/-- JSON values as Python's `json` module materialises them (numbers restricted
to integers; a JSON `null` is Python `None`). -/
inductive Json where
  | null
  | bool (b : Bool)
  | num (n : Int)
  | str (s : String)
  | arr (elems : List Json)
  | obj (fields : List (String × Json))

/-- Python `x is None` on a JSON value (JSON null is Python `None`). -/
def isNull : Json → Bool
  | .null => true
  | _ => false

/-- Python `x == "2.0"` on a JSON value. -/
def isVersionTag : Json → Bool
  | .str s => s == "2.0"
  | _ => false

/-- Python truthiness of a JSON value, as used by `x or {}` in the source. -/
def truthy : Json → Bool
  | .null => false
  | .bool b => b
  | .num n => n != 0
  | .str s => s != ""
  | .arr elems => !elems.isEmpty
  | .obj fields => !fields.isEmpty

/-- Python `d.get(k)`: the value under `k`, or `None` (JSON null) when the key
is absent.  A stored JSON null and an absent key are indistinguishable, exactly
as in Python where both give `None`. -/
def jget (fields : List (String × Json)) (k : String) : Json :=
  (fields.lookup k).getD .null

/-- Python `isinstance(x, (str, int))` on a JSON value.  Python `bool` is a
subtype of `int`, so booleans pass this check. -/
def isStrOrInt : Json → Bool
  | .str _ => true
  | .num _ => true
  | .bool _ => true
  | _ => false

/-- Python `x or {}`: keep a truthy value, replace any falsy value (None,
False, 0, "", [], {}) by the empty object. -/
def orEmptyObj (v : Json) : Json :=
  if truthy v then v else .obj []

/-- `needle` occurs as a contiguous sublist of `hay` starting at the head. -/
def leadingMatch : List Char → List Char → Bool
  | _, [] => true
  | [], _ :: _ => false
  | c :: cs, d :: ds => c == d && leadingMatch cs ds

/-- `needle` occurs somewhere as a contiguous sublist of `hay`. -/
def hasSub (hay needle : List Char) : Bool :=
  leadingMatch hay needle ||
    match hay with
    | [] => false
    | _ :: t => hasSub t needle

/-- Python `"application/json" in header`: substring containment. -/
def hasJsonContentType (contentType : String) : Bool :=
  hasSub contentType.toList "application/json".toList

/-- Standard JSON-RPC error codes, the values of `mcp.types.PARSE_ERROR` etc. -/
def PARSE_ERROR : Int := -32700

def INVALID_REQUEST : Int := -32600

def METHOD_NOT_FOUND : Int := -32601

def INVALID_PARAMS : Int := -32602

/-- `_json_error` from the source: build an error envelope.  A recovered id
that is not a string or integer (Python `isinstance(request_id, (str, int))`)
is replaced by the fallback `0`.  `ErrorData(..., data=None).model_dump(...,
exclude_none=True)` keeps only `code` and `message`. -/
def json_error (code : Int) (message : String) (request_id : Json) : Json :=
  let error_id : Json := if isStrOrInt request_id then request_id else .num 0
  .obj [("jsonrpc", .str "2.0"),
        ("id", error_id),
        ("error", .obj [("code", .num code), ("message", .str message)])]

/-- The success envelope built at the end of `handle_jsonrpc`: the request id
is echoed verbatim, with no type coercion. -/
def successEnvelope (request_id result : Json) : Json :=
  .obj [("jsonrpc", .str "2.0"), ("id", request_id), ("result", result)]

/-- A tool descriptor as the adapter observes it: the plain-data form produced
by `tool.model_dump(by_alias=True, exclude_none=True)`.  The adapter never
inspects any other part of a tool. -/
structure Tool where
  dump : Json

/-- A content item returned by `mcp.call_tool`: either a model object (the
adapter calls `model_dump` on it) or a plain value passed through unchanged
(the `hasattr(item, "model_dump")` test in the source). -/
inductive ContentItem where
  | model (dump : Json)
  | plain (v : Json)

/-- `item.model_dump(...) if hasattr(item, "model_dump") else item`. -/
def ContentItem.serialize : ContentItem → Json
  | .model dump => dump
  | .plain v => v

/-- A fault raised by a collaborator call (a Python exception message). -/
abbrev Fault := String

/-- The tool-registry collaborator (`mcp` from `main`): its two calls the
adapter awaits, each of which may raise. -/
structure Registry where
  list_tools : Except Fault (List Tool)
  call_tool : String → Json → Except Fault (List ContentItem)

/-- The initialization options computed once at process start
(`mcp._mcp_server.create_initialization_options()`), already in serialized
form where the adapter serializes them. -/
structure InitOptions where
  capabilities : Json
  server_name : String
  server_version : String
  instructions : Json

/-- The adapter's read-only environment: the protocol-version constant from
the `mcp.types` module, the startup options and the registry collaborator. -/
structure Env where
  latestProtocolVersion : String
  initOptions : InitOptions
  mcp : Registry

/-- The `initialize` handler's result dictionary. -/
def initResult (env : Env) : Json :=
  .obj [("protocolVersion", .str env.latestProtocolVersion),
        ("capabilities", env.initOptions.capabilities),
        ("serverInfo", .obj [("name", .str env.initOptions.server_name),
                             ("version", .str env.initOptions.server_version)]),
        ("instructions", env.initOptions.instructions)]

/-- An inbound HTTP request as the adapter observes it: HTTP method, the
`content-type` and `accept` headers ("" when absent), and the outcome of
`await request.json()` (`none` when the body does not parse as JSON). -/
structure HttpRequest where
  method : String
  contentType : String
  accept : String
  body : Option Json

/-- The `tools/call` block of `handle_jsonrpc` (source lines 83-107), taking
the already-substituted `params` value (`payload.get("params") or {}`). -/
def toolsCallBranch (env : Env) (request_id params : Json) : Except Fault Json :=
  match params with
  | .obj pfields =>
    let name := jget pfields "name"
    let arguments := orEmptyObj (jget pfields "arguments")
    match name with
    | .str toolName =>
      match arguments with
      | .obj _ =>
        match env.mcp.call_tool toolName arguments with
        | .error e => .error e
        | .ok content =>
          .ok (successEnvelope request_id
            (.obj [("content", .arr (content.map ContentItem.serialize)),
                   ("isError", .bool false)]))
      | _ =>
        .ok (json_error INVALID_PARAMS
          "params.arguments must be an object" request_id)
    | _ =>
      .ok (json_error INVALID_PARAMS "params.name is required" request_id)
  | _ =>
    .ok (json_error INVALID_PARAMS "params must be an object" request_id)

/-- The envelope-field validation and method dispatch of `handle_jsonrpc`
(source lines 54-118), applied to a parsed JSON-object payload. -/
def dispatch (env : Env) (fields : List (String × Json)) : Except Fault Json :=
  let request_id := jget fields "id"
  let params := orEmptyObj (jget fields "params")
  if ¬ isVersionTag (jget fields "jsonrpc") ∨ isNull request_id then
    .ok (json_error INVALID_REQUEST "Invalid JSON-RPC request" request_id)
  else
    match jget fields "method" with
    | .str m =>
      if m = "initialize" then
        .ok (successEnvelope request_id (initResult env))
      else if m = "tools/list" then
        match env.mcp.list_tools with
        | .error e => .error e
        | .ok tools =>
          .ok (successEnvelope request_id
            (.obj [("tools", .arr (tools.map Tool.dump))]))
      else if m = "tools/call" then
        toolsCallBranch env request_id params
      else
        .ok (json_error METHOD_NOT_FOUND "Method not found" request_id)
    | _ =>
      .ok (json_error INVALID_REQUEST "Invalid JSON-RPC request" request_id)

/-- `handle_jsonrpc` from the source, line by line.  Returns the JSON body of
the `JSONResponse`, or `Except.error` when an uncaught collaborator fault
propagates out of the coroutine. -/
def handle_jsonrpc (env : Env) (request : HttpRequest) : Except Fault Json :=
  if ¬ hasJsonContentType request.contentType then
    .ok (json_error INVALID_REQUEST "Content-Type must be application/json" .null)
  else
    match request.body with
    | none => .ok (json_error PARSE_ERROR "Could not parse JSON body" .null)
    | some payload =>
      match payload with
      | .obj fields => dispatch env fields
      | _ =>
        .ok (json_error INVALID_REQUEST "Request body must be a JSON object" .null)

/-- One step of the legacy stream's `event_generator` coroutine: either yield
an SSE frame carrying JSON data, or suspend in `asyncio.sleep`. -/
inductive SseStep where
  | emitFrame (data : Json)
  | sleep (seconds : Nat)

/-- The handshake frame emitted first on the legacy stream: a JSON-RPC
notification (method `"initialize"`, no `id` field) with the fixed payload
hard-coded in the source. -/
def handshakeFrame : Json :=
  .obj [("jsonrpc", .str "2.0"),
        ("method", .str "initialize"),
        ("params",
          .obj [("protocolVersion", .str "2024-11-05"),
                ("capabilities", .obj [("tools", .bool true)]),
                ("serverInfo", .obj [("name", .str "whatsapp"),
                                     ("version", .str "1.0.0")])])]

/-- The `event_generator` coroutine as a step trace: iteration 0 yields the
handshake frame, every later iteration is one pass of the
`while True: await asyncio.sleep(10)` loop. -/
def event_generator : Nat → SseStep
  | 0 => .emitFrame handshakeFrame
  | _ + 1 => .sleep 10

/-- An HTTP response produced by the application: a 200 `JSONResponse`, a 405
from Starlette's method filter, a 404 for an unmatched path, or the
`EventSourceResponse` wrapping the stream generator. -/
inductive HttpResponse where
  | json (body : Json)
  | methodNotAllowed
  | notFound
  | eventStream (steps : Nat → SseStep)

/-- `sse_route` from the source: POST is delegated to `handle_jsonrpc`, any
other method opens the legacy push stream. -/
def sse_route (env : Env) (request : HttpRequest) : Except Fault HttpResponse :=
  if request.method = "POST" then
    (handle_jsonrpc env request).map HttpResponse.json
  else
    .ok (.eventStream event_generator)

/-- The static body served on `/` (GET and POST) and `/.well-known/mcp.json`. -/
def rootDescriptor : Json :=
  .obj [("name", .str "whatsapp"),
        ("protocolVersion", .str "2024-11-05"),
        ("transport", .obj [("type", .str "sse"), ("endpoint", .str "/sse")])]

/-- Static body of `/.well-known/openid-configuration`. -/
def openidConfiguration : Json :=
  .obj [("issuer", .str "http://localhost:3333"),
        ("authorization_endpoint", .str ""),
        ("token_endpoint", .str ""),
        ("jwks_uri", .str ""),
        ("response_types_supported", .arr []),
        ("subject_types_supported", .arr [.str "public"]),
        ("id_token_signing_alg_values_supported", .arr [])]

/-- Static body of `/.well-known/oauth-authorization-server`. -/
def oauthAuthorizationServer : Json :=
  .obj [("issuer", .str "http://localhost:3333"),
        ("authorization_endpoint", .str ""),
        ("token_endpoint", .str ""),
        ("response_types_supported", .arr []),
        ("grant_types_supported", .arr [])]

/-- Static body of the two `/.well-known/oauth-protected-resource*` routes. -/
def oauthProtectedResource : Json :=
  .obj [("resource", .str "whatsapp-mcp"),
        ("authorization_servers", .arr [])]

/-- Static body of `POST /register`. -/
def registerResponse : Json :=
  .obj [("client_id", .str "poke"),
        ("client_secret", .str "not-required")]

/-- The Starlette application's route table: each `Route(path, handler,
methods)` from the source, with Starlette's behaviour of answering 405 when
the path matches but the HTTP method is not in the route's list, and 404 when
no path matches. -/
def app (env : Env) (path : String) (request : HttpRequest) :
    Except Fault HttpResponse :=
  if path = "/sse" then
    if ["GET", "POST", "HEAD", "OPTIONS"].contains request.method then
      sse_route env request
    else .ok .methodNotAllowed
  else if path = "/mcp" then
    if ["POST", "HEAD", "OPTIONS"].contains request.method then
      (handle_jsonrpc env request).map HttpResponse.json
    else .ok .methodNotAllowed
  else if path = "/" then
    if request.method = "GET" ∨ request.method = "POST" then
      .ok (.json rootDescriptor)
    else .ok .methodNotAllowed
  else if path = "/.well-known/openid-configuration" then
    if request.method = "GET" then .ok (.json openidConfiguration)
    else .ok .methodNotAllowed
  else if path = "/.well-known/oauth-authorization-server" then
    if request.method = "GET" then .ok (.json oauthAuthorizationServer)
    else .ok .methodNotAllowed
  else if path = "/.well-known/oauth-protected-resource" then
    if request.method = "GET" then .ok (.json oauthProtectedResource)
    else .ok .methodNotAllowed
  else if path = "/.well-known/oauth-protected-resource/sse" then
    if request.method = "GET" then .ok (.json oauthProtectedResource)
    else .ok .methodNotAllowed
  else if path = "/register" then
    if request.method = "POST" then .ok (.json registerResponse)
    else .ok .methodNotAllowed
  else if path = "/.well-known/mcp.json" then
    if request.method = "GET" then .ok (.json rootDescriptor)
    else .ok .methodNotAllowed
  else .ok .notFound

/-- Python `isinstance(x, str)` on a JSON value. -/
def isString : Json → Bool
  | .str _ => true
  | _ => false

/-- Python `isinstance(x, dict)` on a JSON value. -/
def isObj : Json → Bool
  | .obj _ => true
  | _ => false

/-- Field access on a JSON object (null on non-objects), Python `d.get(k)`. -/
def jfield : Json → String → Json
  | .obj fields, k => jget fields k
  | _, _ => .null

/-- Whether a JSON object carries the key `k` at all (unlike `jfield`, this
distinguishes an absent key from a stored null). -/
def hasField (j : Json) (k : String) : Bool :=
  match j with
  | .obj fields => (fields.lookup k).isSome
  | _ => false

/-- The `id` field of a response envelope. -/
def envelopeId (envelope : Json) : Json :=
  match envelope with
  | .obj fields => jget fields "id"
  | _ => .null

/-- A well-formed JSON-RPC response envelope: the `"2.0"` tag, an `id` field,
and exactly one of `result` / `error`. -/
def wellFormedEnvelope (envelope : Json) : Bool :=
  match envelope with
  | .obj fields =>
    isVersionTag (jget fields "jsonrpc") &&
      (fields.lookup "id").isSome &&
      ((fields.lookup "result").isSome ^^ (fields.lookup "error").isSome)
  | _ => false

/-- The error code of a response envelope, when it is an error envelope. -/
def envelopeErrorCode (envelope : Json) : Option Int :=
  match envelope with
  | .obj fields =>
    match (fields.lookup "error").getD .null with
    | .obj efields =>
      match jget efields "code" with
      | .num code => some code
      | _ => none
    | _ => none
  | _ => none

/-- Whether a handler outcome is a 200 JSON response (as opposed to a 405, a
404, a stream, or a propagated fault). -/
def isJsonResponse : Except Fault HttpResponse → Bool
  | .ok (.json _) => true
  | _ => false

/-- Whether a `handle_jsonrpc` outcome delivered a well-formed envelope (as
opposed to a propagated fault or a malformed body). -/
def okWellFormed : Except Fault Json → Bool
  | .ok envelope => wellFormedEnvelope envelope
  | .error _ => false

/-- Whether a `handle_jsonrpc` outcome is an Invalid Params error envelope. -/
def isInvalidParamsResponse : Except Fault Json → Bool
  | .ok envelope => envelopeErrorCode envelope == some INVALID_PARAMS
  | .error _ => false

/-- A POST request carrying a parsed JSON body with the right content-type. -/
def postReq (body : Json) : HttpRequest :=
  { method := "POST", contentType := "application/json", accept := "",
    body := some body }

/-- The JSON-RPC payload of a `tools/call` request with explicit params. -/
def mkCallPayload (request_id params : Json) : Json :=
  .obj [("jsonrpc", .str "2.0"), ("id", request_id),
        ("method", .str "tools/call"), ("params", params)]

/-- The JSON-RPC payload of a `tools/list` request. -/
def mkListPayload (request_id : Json) : Json :=
  .obj [("jsonrpc", .str "2.0"), ("id", request_id),
        ("method", .str "tools/list")]

/-- The JSON-RPC payload of an `initialize` request. -/
def mkInitPayload (request_id : Json) : Json :=
  .obj [("jsonrpc", .str "2.0"), ("id", request_id),
        ("method", .str "initialize")]

/-- A concrete environment whose collaborator never faults: no registered
tools, and every tool call returns an empty content sequence. -/
def envDemo : Env :=
  { latestProtocolVersion := "2025-03-26",
    initOptions := { capabilities := .obj [], server_name := "whatsapp",
                     server_version := "1.0.0", instructions := .null },
    mcp := { list_tools := .ok [],
             call_tool := fun _ _ => .ok [] } }

/-- A concrete environment whose collaborator raises on every call. -/
def envBoom : Env :=
  { latestProtocolVersion := "2025-03-26",
    initOptions := { capabilities := .obj [], server_name := "whatsapp",
                     server_version := "1.0.0", instructions := .null },
    mcp := { list_tools := .error "boom",
             call_tool := fun _ _ => .error "boom" } }

/-- A concrete environment whose collaborator returns one text content item
on every tool call. -/
def envSearch : Env :=
  { latestProtocolVersion := "2025-03-26",
    initOptions := { capabilities := .obj [], server_name := "whatsapp",
                     server_version := "1.0.0", instructions := .null },
    mcp := { list_tools := .ok [],
             call_tool := fun _ _ =>
               .ok [.model (.obj [("type", .str "text"),
                                  ("text", .str "hi")])] } }

/-! ## Helper lemmas -/

/-- Every envelope built by `json_error` is well-formed. -/
theorem wellFormedEnvelope_json_error (code : Int) (message : String)
    (request_id : Json) :
    wellFormedEnvelope (json_error code message request_id) = true := rfl

/-- Every success envelope is well-formed. -/
theorem wellFormedEnvelope_success (request_id result : Json) :
    wellFormedEnvelope (successEnvelope request_id result) = true := rfl

/-- Python `x or {}` keeps a dict value unchanged (the empty dict is falsy
but is replaced by an equal empty dict). -/
theorem orEmptyObj_obj (fields : List (String × Json)) :
    orEmptyObj (.obj fields) = .obj fields := by
  cases fields <;> rfl

/-- `x or {}` on a truthy value. -/
theorem orEmptyObj_of_truthy {v : Json} (h : truthy v = true) :
    orEmptyObj v = v := by
  unfold orEmptyObj
  rw [if_pos h]

/-- `x or {}` on a falsy value. -/
theorem orEmptyObj_of_falsy {v : Json} (h : truthy v = false) :
    orEmptyObj v = .obj [] := by
  unfold orEmptyObj
  rw [if_neg (by simp [h])]

/-- An Invalid Params `json_error` envelope satisfies
`isInvalidParamsResponse`. -/
theorem isInvalidParamsResponse_json_error (message : String)
    (request_id : Json) :
    isInvalidParamsResponse
      (.ok (json_error INVALID_PARAMS message request_id)) = true := rfl

/-- A valid `tools/list` request reduces to the registry call. -/
theorem handle_list_reduces (env : Env) (request_id : Json)
    (h : isNull request_id = false) :
    handle_jsonrpc env (postReq (mkListPayload request_id)) =
      match env.mcp.list_tools with
      | .error e => .error e
      | .ok tools =>
        .ok (successEnvelope request_id
          (.obj [("tools", .arr (tools.map Tool.dump))])) := by
  cases request_id <;> first | rfl | simp [isNull] at h

/-- A valid `tools/call` request reduces to the `tools/call` handler block
applied to the coerced params. -/
theorem handle_call_reduces (env : Env) (request_id params : Json)
    (h : isNull request_id = false) :
    handle_jsonrpc env (postReq (mkCallPayload request_id params)) =
      toolsCallBranch env request_id (orEmptyObj params) := by
  cases request_id <;> first | rfl | simp [isNull] at h

/-- A valid `tools/call` request without an `arguments` field reduces to the
collaborator call on the empty-object default. -/
theorem handle_call_noargs_reduces (env : Env) (request_id : Json)
    (toolName : String) (h : isNull request_id = false) :
    handle_jsonrpc env (postReq (mkCallPayload request_id
        (.obj [("name", .str toolName)]))) =
      match env.mcp.call_tool toolName (.obj []) with
      | .error e => .error e
      | .ok content =>
        .ok (successEnvelope request_id
          (.obj [("content", .arr (content.map ContentItem.serialize)),
                 ("isError", .bool false)])) := by
  cases request_id <;> first | rfl | simp [isNull] at h

/-! ## Claim theorems -/

/-- Claim C1, counterexample: when the tool-registry collaborator raises
during `tools/call`, the fault propagates out of `handle_jsonrpc` unhandled
instead of being wrapped as an error envelope — the claim's wrapping clause
is false on the code (there is no try/except around the collaborator calls). -/
theorem collaborator_fault_escapes :
    handle_jsonrpc envBoom
        (postReq (mkCallPayload (.str "a")
          (.obj [("name", .str "x"), ("arguments", .obj [("q", .str "hi")])]))) =
      .error "boom" ∧
    okWellFormed (handle_jsonrpc envBoom
        (postReq (mkCallPayload (.str "a")
          (.obj [("name", .str "x"), ("arguments", .obj [("q", .str "hi")])])))) =
      false :=
  ⟨rfl, rfl⟩

/-- Claim C1, amended: as long as the collaborator calls return normally,
`handle_jsonrpc` answers every request — valid or garbage — with a
well-formed JSON-RPC envelope (no unhandled fault); but a fault raised by the
collaborator during `tools/list` or `tools/call` propagates out unhandled. -/
theorem handle_jsonrpc_wellformed (env : Env) (request : HttpRequest)
    (hl : ∃ tools, env.mcp.list_tools = .ok tools)
    (hc : ∀ n a, ∃ content, env.mcp.call_tool n a = .ok content) :
    okWellFormed (handle_jsonrpc env request) = true := by
  unfold handle_jsonrpc dispatch toolsCallBranch
  dsimp only
  repeat' split
  all_goals try rfl
  · next e heq =>
    obtain ⟨tools, htl⟩ := hl
    rw [heq] at htl
    simp at htl
  · next e heq =>
    obtain ⟨content, htc⟩ := hc _ _
    rw [heq] at htc
    simp at htc

/-- Witness for `handle_jsonrpc_wellformed` at a concrete environment and
request. -/
theorem handle_jsonrpc_wellformed_witness :
    okWellFormed (handle_jsonrpc envDemo
      (postReq (mkCallPayload (.num 1)
        (.obj [("name", .str "x"), ("arguments", .obj [])])))) = true :=
  handle_jsonrpc_wellformed envDemo _ ⟨[], rfl⟩ (fun _ _ => ⟨[], rfl⟩)

/-- Claim C2, counterexample: `params.arguments` present with the non-object
value `false` is NOT rejected with Invalid Params — Python's
`params.get("arguments") or {}` replaces every falsy value by the empty
object, so the call succeeds. -/
theorem falsy_arguments_accepted :
    handle_jsonrpc envDemo
        (postReq (mkCallPayload (.num 1)
          (.obj [("name", .str "x"), ("arguments", .bool false)]))) =
      .ok (successEnvelope (.num 1)
        (.obj [("content", .arr []), ("isError", .bool false)])) ∧
    isInvalidParamsResponse (handle_jsonrpc envDemo
        (postReq (mkCallPayload (.num 1)
          (.obj [("name", .str "x"), ("arguments", .bool false)])))) = false :=
  ⟨rfl, rfl⟩

/-- Claim C2, amended: on a valid `tools/call` envelope, (1) a non-object
`params` value yields Invalid Params; (2) a non-string `params.name` yields
Invalid Params; (3) a present, truthy, non-object `params.arguments` yields
Invalid Params; but (4) a falsy `params.arguments` (null, false, 0, "",
empty array) is replaced by the empty object and the call proceeds. -/
theorem tools_call_params_validation :
    (∀ (env : Env) (request_id params : Json),
        isNull request_id = false → isObj params = false →
        isInvalidParamsResponse (handle_jsonrpc env
          (postReq (mkCallPayload request_id params))) = true) ∧
    (∀ (env : Env) (request_id : Json) (pfields : List (String × Json)),
        isNull request_id = false →
        isString (jget pfields "name") = false →
        handle_jsonrpc env (postReq (mkCallPayload request_id (.obj pfields))) =
          .ok (json_error INVALID_PARAMS "params.name is required" request_id)) ∧
    (∀ (env : Env) (request_id : Json) (pfields : List (String × Json)),
        isNull request_id = false →
        isString (jget pfields "name") = true →
        truthy (jget pfields "arguments") = true →
        isObj (jget pfields "arguments") = false →
        handle_jsonrpc env (postReq (mkCallPayload request_id (.obj pfields))) =
          .ok (json_error INVALID_PARAMS
            "params.arguments must be an object" request_id)) ∧
    (∀ (env : Env) (request_id : Json) (pfields : List (String × Json))
        (toolName : String) (content : List ContentItem),
        isNull request_id = false →
        jget pfields "name" = .str toolName →
        truthy (jget pfields "arguments") = false →
        env.mcp.call_tool toolName (.obj []) = .ok content →
        handle_jsonrpc env (postReq (mkCallPayload request_id (.obj pfields))) =
          .ok (successEnvelope request_id
            (.obj [("content", .arr (content.map ContentItem.serialize)),
                   ("isError", .bool false)]))) := by
  refine ⟨?_, ?_, ?_, ?_⟩
  · intro env request_id params h hobj
    rw [handle_call_reduces env request_id params h]
    by_cases ht : truthy params = true
    · rw [orEmptyObj_of_truthy ht]
      cases params <;>
        first
          | exact isInvalidParamsResponse_json_error _ _
          | simp [isObj] at hobj
    · rw [orEmptyObj_of_falsy (by simpa using ht)]
      exact isInvalidParamsResponse_json_error _ _
  · intro env request_id pfields h hs
    rw [handle_call_reduces env request_id (.obj pfields) h, orEmptyObj_obj]
    unfold toolsCallBranch
    dsimp only
    cases hn : jget pfields "name" <;> simp_all [isString]
  · intro env request_id pfields h hs ht hobj
    rw [handle_call_reduces env request_id (.obj pfields) h, orEmptyObj_obj]
    unfold toolsCallBranch
    dsimp only
    cases hn : jget pfields "name" <;> simp_all [isString]
    rw [orEmptyObj_of_truthy ht]
    cases ha : jget pfields "arguments" <;> simp_all [isObj]
  · intro env request_id pfields toolName content h hn ht hc
    rw [handle_call_reduces env request_id (.obj pfields) h, orEmptyObj_obj]
    unfold toolsCallBranch
    dsimp only
    rw [hn, orEmptyObj_of_falsy ht]
    dsimp only
    rw [hc]

/-- Witness for `tools_call_params_validation` at concrete inputs, one per
conjunct. -/
theorem tools_call_params_validation_witness :
    isInvalidParamsResponse (handle_jsonrpc envDemo
        (postReq (mkCallPayload (.num 7) (.str "p")))) = true ∧
    handle_jsonrpc envDemo
        (postReq (mkCallPayload (.num 7) (.obj [("name", .num 3)]))) =
      .ok (json_error INVALID_PARAMS "params.name is required" (.num 7)) ∧
    handle_jsonrpc envDemo
        (postReq (mkCallPayload (.num 7)
          (.obj [("name", .str "x"), ("arguments", .arr [.num 1])]))) =
      .ok (json_error INVALID_PARAMS
        "params.arguments must be an object" (.num 7)) ∧
    handle_jsonrpc envDemo
        (postReq (mkCallPayload (.num 7)
          (.obj [("name", .str "x"), ("arguments", .null)]))) =
      .ok (successEnvelope (.num 7)
        (.obj [("content", .arr []), ("isError", .bool false)])) :=
  ⟨tools_call_params_validation.1 envDemo (.num 7) (.str "p") rfl rfl,
   tools_call_params_validation.2.1 envDemo (.num 7) [("name", .num 3)] rfl rfl,
   tools_call_params_validation.2.2.1 envDemo (.num 7)
     [("name", .str "x"), ("arguments", .arr [.num 1])] rfl rfl rfl rfl,
   tools_call_params_validation.2.2.2 envDemo (.num 7)
     [("name", .str "x"), ("arguments", .null)] "x" [] rfl rfl rfl rfl⟩

/-- Claim C3, counterexample: a payload failing envelope validation with the
malformed-type identifier `[1]` is answered with `id` `0`, not with the raw
array — `_json_error` coerces every non-string, non-integer id to `0`. -/
theorem malformed_id_not_passed_raw :
    handle_jsonrpc envDemo
        (postReq (.obj [("jsonrpc", .str "2.0"), ("id", .arr [.num 1]),
                        ("method", .num 5)])) =
      .ok (json_error INVALID_REQUEST "Invalid JSON-RPC request"
        (.arr [.num 1])) ∧
    envelopeId (json_error INVALID_REQUEST "Invalid JSON-RPC request"
        (.arr [.num 1])) = .num 0 ∧
    Json.num 0 ≠ Json.arr [.num 1] :=
  ⟨rfl, rfl, fun h => Json.noConfusion h⟩

/-- Claim C3, amended: when envelope-field validation fails, the error
response carries the recovered identifier only when it is a string or an
integer; any other recovered identifier (array, object, non-integer number)
is replaced by the fallback `0`. -/
theorem invalid_request_id_coercion :
    (∀ (env : Env) (fields : List (String × Json)),
        (isVersionTag (jget fields "jsonrpc") = false ∨
         isNull (jget fields "id") = true ∨
         isString (jget fields "method") = false) →
        handle_jsonrpc env (postReq (.obj fields)) =
          .ok (json_error INVALID_REQUEST "Invalid JSON-RPC request"
            (jget fields "id"))) ∧
    (∀ (code : Int) (message : String) (request_id : Json),
        envelopeId (json_error code message request_id) =
          if isStrOrInt request_id then request_id else .num 0) := by
  refine ⟨?_, fun _ _ _ => rfl⟩
  intro env fields h
  have hred : handle_jsonrpc env (postReq (.obj fields)) = dispatch env fields :=
    rfl
  rw [hred]
  unfold dispatch
  dsimp only
  by_cases hcond : (¬ isVersionTag (jget fields "jsonrpc") = true ∨
      isNull (jget fields "id") = true)
  · rw [if_pos hcond]
  · rw [if_neg hcond]
    push_neg at hcond
    obtain ⟨hv, hid⟩ := hcond
    have hm : isString (jget fields "method") = false := by
      rcases h with h | h | h
      · rw [h] at hv; simp at hv
      · rw [h] at hid; simp at hid
      · exact h
    cases hmm : jget fields "method" <;> simp_all [isString]

/-- Witness for `invalid_request_id_coercion` at a concrete payload with a
wrong protocol tag and a string id. -/
theorem invalid_request_id_coercion_witness :
    handle_jsonrpc envDemo
        (postReq (.obj [("jsonrpc", .str "1.0"), ("id", .str "a"),
                        ("method", .str "x")])) =
      .ok (json_error INVALID_REQUEST "Invalid JSON-RPC request" (.str "a")) ∧
    envelopeId (json_error INVALID_REQUEST "Invalid JSON-RPC request"
        (.str "a")) = .str "a" :=
  ⟨invalid_request_id_coercion.1 envDemo
     [("jsonrpc", .str "1.0"), ("id", .str "a"), ("method", .str "x")]
     (Or.inl rfl),
   invalid_request_id_coercion.2 INVALID_REQUEST "Invalid JSON-RPC request"
     (.str "a")⟩

/-- Claim C4, counterexample: a GET to `/mcp` whose accept header does NOT
request a push stream still gets a 405, never the static descriptor the
claim promises — the `/mcp` route only lists POST, HEAD and OPTIONS. -/
theorem get_mcp_no_descriptor :
    app envDemo "/mcp"
        { method := "GET", contentType := "", accept := "application/json",
          body := none } = .ok .methodNotAllowed ∧
    isJsonResponse (app envDemo "/mcp"
        { method := "GET", contentType := "", accept := "application/json",
          body := none }) = false :=
  ⟨rfl, rfl⟩

/-- Claim C4, amended: every GET to `/mcp` is answered HTTP 405, regardless
of the accept header (there is no static-descriptor branch for `/mcp`). -/
theorem get_mcp_method_not_allowed (env : Env) (request : HttpRequest)
    (h : request.method = "GET") :
    app env "/mcp" request = .ok .methodNotAllowed := by
  obtain ⟨m, ct, ac, b⟩ := request
  cases h
  rfl

/-- Witness for `get_mcp_method_not_allowed` with a push-stream accept
header. -/
theorem get_mcp_method_not_allowed_witness :
    app envDemo "/mcp"
        { method := "GET", contentType := "application/json",
          accept := "text/event-stream", body := none } =
      .ok .methodNotAllowed :=
  get_mcp_method_not_allowed envDemo _ rfl

/-- Claim C5: a valid `tools/call` with a string name and an object (or
absent) `arguments` returns a success envelope echoing the request id, with
`result.content` the collaborator's items serialized in order and
`result.isError` fixed to `false`. -/
theorem tools_call_success_envelope :
    (∀ (env : Env) (request_id : Json) (toolName : String)
        (argFields : List (String × Json)) (content : List ContentItem),
        isNull request_id = false →
        env.mcp.call_tool toolName (.obj argFields) = .ok content →
        handle_jsonrpc env (postReq (mkCallPayload request_id
            (.obj [("name", .str toolName), ("arguments", .obj argFields)]))) =
          .ok (successEnvelope request_id
            (.obj [("content", .arr (content.map ContentItem.serialize)),
                   ("isError", .bool false)]))) ∧
    (∀ (env : Env) (request_id : Json) (toolName : String)
        (content : List ContentItem),
        isNull request_id = false →
        env.mcp.call_tool toolName (.obj []) = .ok content →
        handle_jsonrpc env (postReq (mkCallPayload request_id
            (.obj [("name", .str toolName)]))) =
          .ok (successEnvelope request_id
            (.obj [("content", .arr (content.map ContentItem.serialize)),
                   ("isError", .bool false)]))) := by
  constructor
  · intro env request_id toolName argFields content h hc
    rw [handle_call_reduces env request_id _ h, orEmptyObj_obj]
    unfold toolsCallBranch
    dsimp only
    rw [show jget [("name", Json.str toolName), ("arguments", Json.obj argFields)]
          "arguments" = Json.obj argFields from rfl,
        orEmptyObj_obj]
    cases argFields <;> simp [jget, hc]
  · intro env request_id toolName content h hc
    rw [handle_call_noargs_reduces env request_id toolName h, hc]

/-- Witness for `tools_call_success_envelope`: the spec's scenario — calling
`search` with `{q: hi}` against a collaborator returning one text item. -/
theorem tools_call_success_envelope_witness :
    handle_jsonrpc envSearch (postReq (mkCallPayload (.str "a")
        (.obj [("name", .str "search"), ("arguments", .obj [("q", .str "hi")])]))) =
      .ok (successEnvelope (.str "a")
        (.obj [("content",
                .arr [.obj [("type", .str "text"), ("text", .str "hi")]]),
               ("isError", .bool false)])) :=
  tools_call_success_envelope.1 envSearch (.str "a") "search"
    [("q", .str "hi")] [.model (.obj [("type", .str "text"), ("text", .str "hi")])]
    rfl rfl

/-- Claim C6: the validator's checks run in order, each short-circuiting: a
non-JSON content-type yields Invalid Request with id `0` whatever the body;
a JSON content-type with an unparseable body yields Parse Error with id `0`;
a parsed non-object body yields Invalid Request with id `0`; envelope fields
are checked only after all three. -/
theorem validation_short_circuit_order :
    (∀ (env : Env) (request : HttpRequest),
        hasJsonContentType request.contentType = false →
        handle_jsonrpc env request =
          .ok (json_error INVALID_REQUEST
            "Content-Type must be application/json" .null)) ∧
    (∀ (env : Env) (request : HttpRequest),
        hasJsonContentType request.contentType = true → request.body = none →
        handle_jsonrpc env request =
          .ok (json_error PARSE_ERROR "Could not parse JSON body" .null)) ∧
    (∀ (env : Env) (request : HttpRequest) (body : Json),
        hasJsonContentType request.contentType = true →
        request.body = some body → isObj body = false →
        handle_jsonrpc env request =
          .ok (json_error INVALID_REQUEST
            "Request body must be a JSON object" .null)) ∧
    (∀ (code : Int) (message : String),
        envelopeId (json_error code message .null) = .num 0) := by
  refine ⟨?_, ?_, ?_, fun _ _ => rfl⟩
  · intro env request h
    unfold handle_jsonrpc
    simp [h]
  · intro env request h hb
    unfold handle_jsonrpc
    simp [h, hb]
  · intro env request body h hb hno
    unfold handle_jsonrpc
    simp [h, hb]
    cases body <;> simp_all [isObj]

/-- Witness for `validation_short_circuit_order` at three concrete
requests: wrong content-type, unparseable body, non-object body. -/
theorem validation_short_circuit_order_witness :
    handle_jsonrpc envDemo
        { method := "POST", contentType := "text/plain", accept := "",
          body := none } =
      .ok (json_error INVALID_REQUEST
        "Content-Type must be application/json" .null) ∧
    handle_jsonrpc envDemo
        { method := "POST", contentType := "application/json", accept := "",
          body := none } =
      .ok (json_error PARSE_ERROR "Could not parse JSON body" .null) ∧
    handle_jsonrpc envDemo
        { method := "POST", contentType := "application/json", accept := "",
          body := some (.arr [.num 1]) } =
      .ok (json_error INVALID_REQUEST
        "Request body must be a JSON object" .null) :=
  ⟨validation_short_circuit_order.1 envDemo _ rfl,
   validation_short_circuit_order.2.1 envDemo _ rfl rfl,
   validation_short_circuit_order.2.2.1 envDemo _ (.arr [.num 1]) rfl rfl rfl⟩

/-- Claim C7: a valid `tools/list` call returns exactly the registry's
current descriptor sequence in registry order, and repeated calls against
the same (unmutated) registry state return the same response. -/
theorem tools_list_reflects_registry :
    (∀ (env : Env) (request_id : Json) (tools : List Tool),
        env.mcp.list_tools = .ok tools → isNull request_id = false →
        handle_jsonrpc env (postReq (mkListPayload request_id)) =
          .ok (successEnvelope request_id
            (.obj [("tools", .arr (tools.map Tool.dump))]))) ∧
    (∀ (env : Env) (request_id : Json),
        handle_jsonrpc env (postReq (mkListPayload request_id)) =
          handle_jsonrpc env (postReq (mkListPayload request_id))) := by
  refine ⟨?_, fun _ _ => rfl⟩
  intro env request_id tools hl h
  rw [handle_list_reduces env request_id h, hl]

/-- Witness for `tools_list_reflects_registry` at the empty registry. -/
theorem tools_list_reflects_registry_witness :
    handle_jsonrpc envDemo (postReq (mkListPayload (.num 2))) =
      .ok (successEnvelope (.num 2) (.obj [("tools", .arr [])])) :=
  tools_list_reflects_registry.1 envDemo (.num 2) [] rfl rfl

/-- Claim C8: GET on the legacy endpoint `/sse` opens the stream whose step
trace yields, first, the synthetic `initialize` notification (no request id,
the fixed protocol-version / capabilities payload) and afterwards only the
fixed 10-unit keep-alive sleeps of the idle loop, forever — no further
application data is ever emitted. -/
theorem legacy_stream_handshake_then_keepalive :
    (∀ (env : Env) (request : HttpRequest), request.method = "GET" →
        app env "/sse" request = .ok (.eventStream event_generator)) ∧
    event_generator 0 = .emitFrame handshakeFrame ∧
    jfield handshakeFrame "method" = .str "initialize" ∧
    hasField handshakeFrame "id" = false ∧
    jfield handshakeFrame "params" =
      .obj [("protocolVersion", .str "2024-11-05"),
            ("capabilities", .obj [("tools", .bool true)]),
            ("serverInfo", .obj [("name", .str "whatsapp"),
                                 ("version", .str "1.0.0")])] ∧
    (∀ n, event_generator (n + 1) = .sleep 10) := by
  refine ⟨?_, rfl, rfl, rfl, rfl, fun n => rfl⟩
  intro env request h
  obtain ⟨m, ct, ac, b⟩ := request
  cases h
  rfl

/-- Witness for `legacy_stream_handshake_then_keepalive` at a concrete GET. -/
theorem legacy_stream_handshake_witness :
    app envDemo "/sse"
        { method := "GET", contentType := "", accept := "text/event-stream",
          body := none } = .ok (.eventStream event_generator) :=
  legacy_stream_handshake_then_keepalive.1 envDemo _ rfl

/-- Claim C9: POST `/mcp` and POST `/sse` produce identical outcomes for
every request — both routes delegate to the same `handle_jsonrpc` pipeline. -/
theorem post_mcp_sse_equivalent (env : Env) (request : HttpRequest)
    (h : request.method = "POST") :
    app env "/mcp" request = app env "/sse" request := by
  unfold app sse_route
  simp [h]

/-- Witness for `post_mcp_sse_equivalent` at a concrete POST. -/
theorem post_mcp_sse_equivalent_witness :
    app envDemo "/mcp" (postReq (mkInitPayload (.num 1))) =
      app envDemo "/sse" (postReq (mkInitPayload (.num 1))) :=
  post_mcp_sse_equivalent envDemo _ rfl

/-- Claim C10: every error envelope's id is a string or integer (anything
else is coerced to the fallback `0` by `_json_error`), while a success
envelope echoes the request id verbatim — so a valid request with a non-null
array id receives a success response carrying that array id unchanged. -/
theorem response_id_discipline :
    (∀ (code : Int) (message : String) (request_id : Json),
        isStrOrInt (envelopeId (json_error code message request_id)) = true) ∧
    (∀ (env : Env) (request_id : Json), isNull request_id = false →
        handle_jsonrpc env (postReq (mkInitPayload request_id)) =
          .ok (successEnvelope request_id (initResult env))) := by
  constructor
  · intro code message request_id
    cases request_id <;> rfl
  · intro env request_id h
    cases request_id <;> first | rfl | simp [isNull] at h

/-- Witness for `response_id_discipline`: an array id is coerced to `0` in
an error envelope but echoed verbatim in a success envelope. -/
theorem response_id_discipline_witness :
    isStrOrInt (envelopeId (json_error INVALID_REQUEST "m" (.arr []))) = true ∧
    handle_jsonrpc envDemo (postReq (mkInitPayload (.arr [.num 1]))) =
      .ok (successEnvelope (.arr [.num 1]) (initResult envDemo)) :=
  ⟨response_id_discipline.1 INVALID_REQUEST "m" (.arr []),
   response_id_discipline.2 envDemo (.arr [.num 1]) rfl⟩

end WhatsappMcp
